import Mathlib

/-!
Shallow embedding of `subiquity/server/apt.py` (class `AptConfigurer`).

External effects (commands run, filesystem operations, temp-directory
allocation) are recorded in an event trace; the OS and the external
`curtin` tool are abstracted by an environment that decides which
external calls succeed.  Python exceptions are modelled by a `Bool`
success flag threaded through each operation: a `false` flag aborts the
remaining steps, exactly as a propagating exception does, while the
object state reached so far is kept (deconfigure can be called on it).
-/

namespace AptStager

/-- One observable side effect of the configurer. -/
inductive Event where
  | runCmd (argv : List String)
  | curtin (argv : List String)
  | mkdtempEv (path : String)
  | mkdirEv (path : String)
  | renameEv (src dst : String)
  | unlinkEv (path : String)
  | writeFileEv (path content : String)
  | rmtreeEv (path : String)
  | rmdirEv (path : String)
  deriving DecidableEq, Repr

/-- Association-list lookup by path, first match wins (models the unique
file at a path). -/
def lookupA : List (String × String) → String → Option String
  | [], _ => none
  | (k, v) :: L, p => if k = p then some v else lookupA L p

/-- Remove every entry for a path. -/
def eraseKey : List (String × String) → String → List (String × String)
  | [], _ => []
  | (k, v) :: L, p => if k = p then eraseKey L p else (k, v) :: eraseKey L p

/-- Create or truncate a file (models `curtin.util.write_file` / `open(..., "w")`). -/
def setFileL (L : List (String × String)) (p v : String) : List (String × String) :=
  (p, v) :: eraseKey L p

/-- The fragment of the filesystem the configurer touches: regular files
with contents, and the directories it creates or removes. -/
structure FS where
  files : List (String × String)
  dirs : List String
  deriving DecidableEq, Repr

/-- The state of one `AptConfigurer` instance, plus the world it acts on:
`mounts` is `self._mounts`, `tdirs` is `self._tdirs`, `trace` records all
side effects so far, `netReads` counts reads of
`app.base_model.network.has_network` (the attribute may change between
reads, so the environment maps the read index to the value observed). -/
structure St where
  target : String
  mounts : List String
  tdirs : List String
  fs : FS
  trace : List Event
  netReads : Nat
  deriving DecidableEq, Repr

/-- The environment: which external calls succeed, fresh temp-dir names,
the time-varying network flag, dry-run option, release codename. -/
structure Env where
  cmdOk : List String → Bool
  curtinOk : List String → Bool
  rmtreeOk : String → Bool
  tdirName : Nat → String
  hasNetwork : Nat → Bool
  dryRun : Bool
  codename : String
  confContent : String
  root : String

/-- All external calls succeed. -/
def Env.allOk (e : Env) : Prop :=
  (∀ a, e.cmdOk a = true) ∧ (∀ a, e.curtinOk a = true) ∧ (∀ d, e.rmtreeOk d = true)

/-- Models `os.path.join` for one relative component, as used by the source. -/
def pjoin (a b : String) : String :=
  if a.data.getLast? = some (Char.ofNat 47) then a ++ b else a ++ "/" ++ b

/-- Models `AptConfigurer.tpath`. -/
def tpath (target p : String) : String := pjoin target p

/-- The options string built by `setup_overlay`. -/
def overlayOpts (dir u w : String) : String :=
  "lowerdir=" ++ dir ++ ",upperdir=" ++ u ++ ",workdir=" ++ w

/-- The argv built by `AptConfigurer.mount`. -/
def mountArgv (device mountpoint : String) (options fstype : Option String) : List String :=
  ["mount"]
    ++ (match options with | some o => ["-o", o] | none => [])
    ++ (match fstype with | some t => ["-t", t] | none => [])
    ++ [device, mountpoint]

/-- The argv built by `AptConfigurer.unmount`. -/
def umountArgvL (m : String) : List String := ["umount", m]

/-- Argv of the early `curtin apt-config` invocation. -/
def aptConfigArgv (target confP : String) : List String :=
  ["apt-config", "-t", target, confP]

/-- Argv of the in-target `apt-get update` invocation. -/
def updArgv (target : String) : List String :=
  ["in-target", "-t", target, "--", "apt-get", "update"]

/-- Relative path of the rendered apt config artifact. -/
def confRel : String := "var/log/installer/subiquity-curtin-apt.conf"

/-- Absolute path of the rendered apt config artifact. -/
def confPath (e : Env) : String := pjoin e.root confRel

/-- The source-list line written by `configure`. -/
def sourcesLine (codename : String) : String :=
  "deb [check-date=no] file:///cdrom " ++ codename ++ " main restricted\n"

/-- Models `AptConfigurer.mount`: run the mount command; on success append the
mountpoint to the ledger. -/
def mount (e : Env) (c : St) (device mountpoint : String)
    (options fstype : Option String) : St × Bool :=
  let argv := mountArgv device mountpoint options fstype
  let c2 := { c with trace := c.trace ++ [Event.runCmd argv] }
  if e.cmdOk argv then ({ c2 with mounts := c2.mounts ++ [mountpoint] }, true)
  else (c2, false)

/-- Models `AptConfigurer.unmount`: run the umount command.  The ledger is not
touched. -/
def unmount (e : Env) (c : St) (m : String) : St × Bool :=
  ({ c with trace := c.trace ++ [Event.runCmd (umountArgvL m)] }, e.cmdOk (umountArgvL m))

/-- Models `AptConfigurer.tdir`: `tempfile.mkdtemp()` plus recording in `_tdirs`. -/
def tdir (e : Env) (c : St) : St × String :=
  let d := e.tdirName c.tdirs.length
  ({ c with tdirs := c.tdirs ++ [d], trace := c.trace ++ [Event.mkdtempEv d] }, d)

/-- Models `os.mkdir`. -/
def mkdirOp (c : St) (d : String) : St :=
  { c with trace := c.trace ++ [Event.mkdirEv d],
           fs := { c.fs with dirs := d :: c.fs.dirs } }

/-- File write. -/
def writeFileOp (c : St) (p v : String) : St :=
  { c with trace := c.trace ++ [Event.writeFileEv p v],
           fs := { c.fs with files := setFileL c.fs.files p v } }

/-- Models `os.rename`: fails (raises) when the source file does not exist. -/
def renameOp (c : St) (src dst : String) : St × Bool :=
  match lookupA c.fs.files src with
  | some v =>
      ({ c with trace := c.trace ++ [Event.renameEv src dst],
                fs := { c.fs with files := (dst, v) :: eraseKey (eraseKey c.fs.files src) dst } },
       true)
  | none => ({ c with trace := c.trace ++ [Event.renameEv src dst] }, false)

/-- Models `os.unlink` (only called after an existence check in the source). -/
def unlinkOp (c : St) (p : String) : St :=
  { c with trace := c.trace ++ [Event.unlinkEv p],
           fs := { c.fs with files := eraseKey c.fs.files p } }

/-- One read of `app.base_model.network.has_network`. -/
def readNetwork (e : Env) (c : St) : St × Bool :=
  ({ c with netReads := c.netReads + 1 }, e.hasNetwork c.netReads)

/-- Models `shutil.rmtree` over a pool paths list, fail-fast as in Python
(`rmtree` raises on failure and the loop is not protected). -/
def rmtreeAll (e : Env) : List String → St → St × Bool
  | [], c => (c, true)
  | d :: ds, c =>
      let c2 := { c with trace := c.trace ++ [Event.rmtreeEv d] }
      if e.rmtreeOk d then rmtreeAll e ds c2 else (c2, false)

/-- The unmount loop of `deconfigure`, fail-fast. -/
def unmountAll (e : Env) : List String → St → St × Bool
  | [], c => (c, true)
  | m :: ms, c =>
      let r := unmount e c m
      if r.2 then unmountAll e ms r.1 else r

/-- Models `os.rmdir`: fails when the directory does not exist. -/
def rmdirOp (c : St) (d : String) : St × Bool :=
  let c2 := { c with trace := c.trace ++ [Event.rmdirEv d] }
  if c2.fs.dirs.contains d then
    ({ c2 with fs := { c2.fs with dirs := c2.fs.dirs.filter (fun x => !(x == d)) } }, true)
  else (c2, false)

/-- Models `AptConfigurer.setup_overlay`. -/
def setup_overlay (e : Env) (c : St) (dir : String) : St × Bool :=
  let r := tdir e c
  let t := r.2
  let w := t ++ "/work"
  let u := t ++ "/upper"
  let c2 := mkdirOp (mkdirOp r.1 w) u
  mount e c2 "overlay" dir (some (overlayOpts dir u w)) (some "overlay")

/-- Models `AptConfigurer.configure`. -/
def configure (e : Env) (c : St) : St × Bool :=
  let c1 := writeFileOp c (confPath e) e.confContent
  let argvA := aptConfigArgv c1.target (confPath e)
  let c2 := { c1 with trace := c1.trace ++ [Event.curtin argvA] }
  if !e.curtinOk argvA then (c2, false) else
  let r1 := setup_overlay e c2 (tpath c2.target "etc/apt")
  if !r1.2 then r1 else
  let c3 := mkdirOp r1.1 (tpath r1.1.target "cdrom")
  let r2 := mount e c3 "/cdrom" (tpath c3.target "cdrom") (some "bind") none
  if !r2.2 then r2 else
  let c4 := r2.1
  let n := readNetwork e c4
  let c5 := n.1
  let r3 :=
    if n.2 then
      renameOp c5 (tpath c5.target "etc/apt/sources.list")
        (tpath c5.target "etc/apt/sources.list.d/original.list")
    else
      let pp := tpath c5.target "etc/apt/apt.conf.d/90curtin-aptproxy"
      let c6 := if (lookupA c5.fs.files pp).isSome then unlinkOp c5 pp else c5
      setup_overlay e c6 (tpath c6.target "var/lib/apt/lists")
  if !r3.2 then r3 else
  let c7 := writeFileOp r3.1 (tpath r3.1.target "etc/apt/sources.list") (sourcesLine e.codename)
  let argvU := updArgv c7.target
  let c8 := { c7 with trace := c7.trace ++ [Event.curtin argvU] }
  (c8, e.curtinOk argvU)

/-- Models `AptConfigurer.deconfigure`. -/
def deconfigure (e : Env) (c : St) : St × Bool :=
  let r1 := unmountAll e c.mounts.reverse c
  if !r1.2 then r1 else
  let r2 := rmtreeAll e r1.1.tdirs r1.1
  if !r2.2 then r2 else
  let c2 := r2.1
  let r3 := if e.dryRun then (c2, true) else rmdirOp c2 (tpath c2.target "cdrom")
  if !r3.2 then r3 else
  let c3 := r3.1
  let n := readNetwork e c3
  if n.2 then
    let argvU := updArgv n.1.target
    ({ n.1 with trace := n.1.trace ++ [Event.curtin argvU] }, e.curtinOk argvU)
  else (n.1, true)

/-- The events emitted by a `deconfigure` call (the trace delta). -/
def deconfigureTrace (e : Env) (c : St) : List Event :=
  ((deconfigure e c).1.trace).drop c.trace.length

/-- Is this event an OS command invocation (`app.command_runner.run`)? -/
def isRunCmdE : Event → Bool
  | Event.runCmd _ => true
  | _ => false

/-- Is this event a `shutil.rmtree` invocation? -/
def isRmtreeE : Event → Bool
  | Event.rmtreeEv _ => true
  | _ => false

/-- Is this event an `os.rmdir` invocation? -/
def isRmdirE : Event → Bool
  | Event.rmdirEv _ => true
  | _ => false

/-- The OS commands issued in a trace. -/
def osCmds (t : List Event) : List Event := t.filter isRunCmdE

/-- The `rmtree` calls issued in a trace. -/
def rmtreeCalls (t : List Event) : List Event := t.filter isRmtreeE

/-- A fresh configurer over target `/target`, with initial file table `L`
and initial directory set `D` (mirrors `AptConfigurer.__init__`). -/
def st0 (L : List (String × String)) (D : List String) : St :=
  { target := "/target", mounts := [], tdirs := [],
    fs := { files := L, dirs := D }, trace := [], netReads := 0 }

/-- An environment in which every external call succeeds, the network is
always present and dry-run mode is off. -/
def envA : Env where
  cmdOk := fun _ => true
  curtinOk := fun _ => true
  rmtreeOk := fun _ => true
  tdirName := fun n => "/tmp/t" ++ toString n
  hasNetwork := fun _ => true
  dryRun := false
  codename := "focal"
  confContent := "cfg"
  root := "/"

/-- All-success environment with the network absent. -/
def envNoNet : Env := { envA with hasNetwork := fun _ => false }

/-- Environment in which the early `curtin apt-config` call fails. -/
def envCurtinFail : Env := { envA with curtinOk := fun _ => false }

/-- Environment with the network absent and removal of the first
allocated temp directory failing. -/
def envRmtreeFail : Env :=
  { envA with hasNetwork := fun _ => false,
              rmtreeOk := fun d => !(d == "/tmp/t0") }

/-- Environment in which the media bind mount fails. -/
def envBindFail : Env :=
  { envA with cmdOk := fun a => !(a == mountArgv "/cdrom" "/target/cdrom" (some "bind") none) }

/-- Environment in which unmounting the media bind mount fails. -/
def envUmountFail : Env :=
  { envA with cmdOk := fun a => !(a == umountArgvL "/target/cdrom") }

/-- Environment with the network present at configure time (read index 0)
and absent at deconfigure time (read index 1). -/
def envNetFlip : Env := { envA with hasNetwork := fun i => i == 0 }

/-- All-success environment in dry-run mode. -/
def envDryRun : Env := { envA with dryRun := true }

/-- A typical fresh initial state: only the provisioning-tool-generated
source list exists. -/
def c0 : St := st0 [("/target/etc/apt/sources.list", "orig")] []

/-- A fresh initial state in which a proxy fragment also exists. -/
def c0p : St :=
  st0 [("/target/etc/apt/sources.list", "orig"),
       ("/target/etc/apt/apt.conf.d/90curtin-aptproxy", "proxy")] []

section Lemmas

theorem lookupA_eraseKey_ne (L : List (String × String)) (k p : String) (h : p ≠ k) :
    lookupA (eraseKey L k) p = lookupA L p := by
  induction L with
  | nil => rfl
  | cons a L ih =>
      obtain ⟨ka, va⟩ := a
      by_cases hk : ka = k
      · subst hk
        simp [eraseKey, lookupA, ih, Ne.symm h]
      · by_cases hp : ka = p
        · subst hp
          simp [eraseKey, lookupA, hk]
        · simp [eraseKey, lookupA, hk, hp, ih]

theorem lookupA_eraseKey_self (L : List (String × String)) (k : String) :
    lookupA (eraseKey L k) k = none := by
  induction L with
  | nil => rfl
  | cons a L ih =>
      obtain ⟨ka, va⟩ := a
      by_cases hk : ka = k
      · simp [eraseKey, hk, ih]
      · simp [eraseKey, lookupA, hk, ih]

theorem lookupA_setFileL_self (L : List (String × String)) (p v : String) :
    lookupA (setFileL L p v) p = some v := by
  simp [setFileL, lookupA]

theorem lookupA_setFileL_ne (L : List (String × String)) (p v q : String) (h : q ≠ p) :
    lookupA (setFileL L p v) q = lookupA L q := by
  simp [setFileL, lookupA, Ne.symm h, lookupA_eraseKey_ne L p q h]

theorem unmountAll_ok (e : Env) (ms : List String) (c : St)
    (h : ∀ m ∈ ms, e.cmdOk (umountArgvL m) = true) :
    unmountAll e ms c
      = ({ c with trace := c.trace ++ ms.map (fun m => Event.runCmd (umountArgvL m)) }, true) := by
  induction ms generalizing c with
  | nil => simp [unmountAll]
  | cons m ms ih =>
      have hm : e.cmdOk (umountArgvL m) = true := h m (by simp)
      have hms : ∀ x ∈ ms, e.cmdOk (umountArgvL x) = true := fun x hx => h x (by simp [hx])
      simp [unmountAll, unmount, hm, ih _ hms]

theorem unmountAll_fail (e : Env) (ms1 : List String) (m : String) (ms2 : List String) (c : St)
    (h1 : ∀ x ∈ ms1, e.cmdOk (umountArgvL x) = true)
    (hm : e.cmdOk (umountArgvL m) = false) :
    unmountAll e (ms1 ++ m :: ms2) c
      = ({ c with trace := c.trace
            ++ (ms1 ++ [m]).map (fun x => Event.runCmd (umountArgvL x)) }, false) := by
  induction ms1 generalizing c with
  | nil => simp [unmountAll, unmount, hm]
  | cons a ms ih =>
      have ha : e.cmdOk (umountArgvL a) = true := h1 a (by simp)
      have hms : ∀ x ∈ ms, e.cmdOk (umountArgvL x) = true := fun x hx => h1 x (by simp [hx])
      simp [unmountAll, unmount, ha, ih _ hms]

theorem rmtreeAll_ok (e : Env) (ds : List String) (c : St)
    (h : ∀ d ∈ ds, e.rmtreeOk d = true) :
    rmtreeAll e ds c
      = ({ c with trace := c.trace ++ ds.map Event.rmtreeEv }, true) := by
  induction ds generalizing c with
  | nil => simp [rmtreeAll]
  | cons d ds ih =>
      have hd : e.rmtreeOk d = true := h d (by simp)
      have hds : ∀ x ∈ ds, e.rmtreeOk x = true := fun x hx => h x (by simp [hx])
      simp [rmtreeAll, hd, ih _ hds]

theorem rmtreeAll_fail (e : Env) (ds1 : List String) (d : String) (ds2 : List String) (c : St)
    (h1 : ∀ x ∈ ds1, e.rmtreeOk x = true)
    (hd : e.rmtreeOk d = false) :
    rmtreeAll e (ds1 ++ d :: ds2) c
      = ({ c with trace := c.trace ++ (ds1 ++ [d]).map Event.rmtreeEv }, false) := by
  induction ds1 generalizing c with
  | nil => simp [rmtreeAll, hd]
  | cons a ds ih =>
      have ha : e.rmtreeOk a = true := h1 a (by simp)
      have hds : ∀ x ∈ ds, e.rmtreeOk x = true := fun x hx => h1 x (by simp [hx])
      simp [rmtreeAll, ha, ih _ hds]

theorem unmountAll_inv (e : Env) (ms : List String) (c : St) :
    (unmountAll e ms c).1.mounts = c.mounts ∧ (unmountAll e ms c).1.tdirs = c.tdirs ∧
      (unmountAll e ms c).1.fs = c.fs ∧ (unmountAll e ms c).1.netReads = c.netReads ∧
      (unmountAll e ms c).1.target = c.target := by
  induction ms generalizing c with
  | nil => simp [unmountAll]
  | cons m ms ih =>
      by_cases h : e.cmdOk (umountArgvL m) = true
      · simp [unmountAll, unmount, h, ih]
      · simp at h
        simp [unmountAll, unmount, h]

theorem rmtreeAll_inv (e : Env) (ds : List String) (c : St) :
    (rmtreeAll e ds c).1.mounts = c.mounts ∧ (rmtreeAll e ds c).1.tdirs = c.tdirs ∧
      (rmtreeAll e ds c).1.fs = c.fs ∧ (rmtreeAll e ds c).1.netReads = c.netReads ∧
      (rmtreeAll e ds c).1.target = c.target := by
  induction ds generalizing c with
  | nil => simp [rmtreeAll]
  | cons d ds ih =>
      by_cases h : e.rmtreeOk d = true
      · simp [rmtreeAll, h, ih]
      · simp at h
        simp [rmtreeAll, h]

theorem rmdirOp_inv (c : St) (d : String) :
    (rmdirOp c d).1.mounts = c.mounts ∧ (rmdirOp c d).1.tdirs = c.tdirs ∧
      (rmdirOp c d).1.target = c.target ∧ (rmdirOp c d).1.netReads = c.netReads := by
  by_cases h : d ∈ c.fs.dirs
  · simp [rmdirOp, h]
  · simp [rmdirOp, h]

/-- Deconfigure never touches the two ledgers themselves: `_mounts` and
`_tdirs` still hold their records when it returns, whatever the
environment does. -/
theorem deconfigure_inv (e : Env) (c : St) :
    (deconfigure e c).1.mounts = c.mounts ∧ (deconfigure e c).1.tdirs = c.tdirs := by
  unfold deconfigure
  obtain ⟨hm1, ht1, hf1, hn1, htg1⟩ := unmountAll_inv e c.mounts.reverse c
  cases h1 : unmountAll e c.mounts.reverse c with
  | mk c1 ok1 =>
      rw [h1] at hm1 ht1 hf1 hn1 htg1
      simp only at hm1 ht1 hf1 hn1 htg1
      cases ok1 with
      | false => simp [hm1, ht1]
      | true =>
          simp only [Bool.not_true, if_false, ite_false]
          obtain ⟨hm2, ht2, hf2, hn2, htg2⟩ := rmtreeAll_inv e c1.tdirs c1
          cases h2 : rmtreeAll e c1.tdirs c1 with
          | mk c2 ok2 =>
              rw [h2] at hm2 ht2 hf2 hn2 htg2
              simp only at hm2 ht2 hf2 hn2 htg2
              cases ok2 with
              | false => simp [hm2, ht2, hm1, ht1]
              | true =>
                  obtain ⟨hm3, ht3, htg3, hn3⟩ := rmdirOp_inv c2 (tpath c2.target "cdrom")
                  cases h3 : rmdirOp c2 (tpath c2.target "cdrom") with
                  | mk c3 ok3 =>
                      rw [h3] at hm3 ht3 htg3 hn3
                      simp only at hm3 ht3 htg3 hn3
                      cases hd : e.dryRun with
                      | true =>
                          cases hn : e.hasNetwork c2.netReads <;>
                            simp [readNetwork, hn, hm2, ht2, hm1, ht1]
                      | false =>
                          cases ok3 with
                          | false => simp [h3, hm3, ht3, hm2, ht2, hm1, ht1]
                          | true =>
                              cases hn : e.hasNetwork c3.netReads <;>
                                simp [h3, readNetwork, hn, hm3, ht3, hm2, ht2, hm1, ht1]

/-- Characterization of a fully successful `deconfigure` in dry-run mode. -/
theorem deconfigure_dry (e : Env) (c : St)
    (hm : ∀ m ∈ c.mounts, e.cmdOk (umountArgvL m) = true)
    (ht : ∀ d ∈ c.tdirs, e.rmtreeOk d = true)
    (hdry : e.dryRun = true) :
    deconfigure e c
      = ({ c with
            netReads := c.netReads + 1,
            trace := c.trace
              ++ c.mounts.reverse.map (fun m => Event.runCmd (umountArgvL m))
              ++ c.tdirs.map Event.rmtreeEv
              ++ (if e.hasNetwork c.netReads then [Event.curtin (updArgv c.target)] else []) },
         if e.hasNetwork c.netReads then e.curtinOk (updArgv c.target) else true) := by
  have hrev : ∀ m ∈ c.mounts.reverse, e.cmdOk (umountArgvL m) = true :=
    fun m hm2 => hm m (List.mem_reverse.mp hm2)
  have h1 := unmountAll_ok e c.mounts.reverse c hrev
  have h2 := rmtreeAll_ok e c.tdirs
    { c with trace := c.trace ++ c.mounts.reverse.map (fun m => Event.runCmd (umountArgvL m)) } ht
  simp at h1 h2
  cases hn : e.hasNetwork c.netReads with
  | true =>
      simp [deconfigure, h1, h2, hdry, readNetwork, hn, List.append_assoc]
  | false =>
      simp [deconfigure, h1, h2, hdry, readNetwork, hn, List.append_assoc]

/-- Characterization of a fully successful `deconfigure` outside dry-run
mode (the media mountpoint directory must exist for `os.rmdir` to
succeed). -/
theorem deconfigure_wet (e : Env) (c : St)
    (hm : ∀ m ∈ c.mounts, e.cmdOk (umountArgvL m) = true)
    (ht : ∀ d ∈ c.tdirs, e.rmtreeOk d = true)
    (hdry : e.dryRun = false)
    (hcd : tpath c.target "cdrom" ∈ c.fs.dirs) :
    deconfigure e c
      = ({ c with
            fs := { c.fs with
                    dirs := c.fs.dirs.filter (fun x => !(x == tpath c.target "cdrom")) },
            netReads := c.netReads + 1,
            trace := c.trace
              ++ c.mounts.reverse.map (fun m => Event.runCmd (umountArgvL m))
              ++ c.tdirs.map Event.rmtreeEv
              ++ [Event.rmdirEv (tpath c.target "cdrom")]
              ++ (if e.hasNetwork c.netReads then [Event.curtin (updArgv c.target)] else []) },
         if e.hasNetwork c.netReads then e.curtinOk (updArgv c.target) else true) := by
  have hrev : ∀ m ∈ c.mounts.reverse, e.cmdOk (umountArgvL m) = true :=
    fun m hm2 => hm m (List.mem_reverse.mp hm2)
  have h1 := unmountAll_ok e c.mounts.reverse c hrev
  have h2 := rmtreeAll_ok e c.tdirs
    { c with trace := c.trace ++ c.mounts.reverse.map (fun m => Event.runCmd (umountArgvL m)) } ht
  simp at h1 h2
  cases hn : e.hasNetwork c.netReads with
  | true =>
      simp [deconfigure, h1, h2, hdry, rmdirOp, hcd, readNetwork, hn, List.append_assoc]
  | false =>
      simp [deconfigure, h1, h2, hdry, rmdirOp, hcd, readNetwork, hn, List.append_assoc]

/-- Characterization of `deconfigure` when the unmount and removal phases
succeed but the media mountpoint directory does not exist: `os.rmdir`
raises and the final refresh is never reached. -/
theorem deconfigure_rmdir_fail (e : Env) (c : St)
    (hm : ∀ m ∈ c.mounts, e.cmdOk (umountArgvL m) = true)
    (ht : ∀ d ∈ c.tdirs, e.rmtreeOk d = true)
    (hdry : e.dryRun = false)
    (hcd : tpath c.target "cdrom" ∉ c.fs.dirs) :
    deconfigure e c
      = ({ c with
            trace := c.trace
              ++ c.mounts.reverse.map (fun m => Event.runCmd (umountArgvL m))
              ++ c.tdirs.map Event.rmtreeEv
              ++ [Event.rmdirEv (tpath c.target "cdrom")] },
         false) := by
  have hrev : ∀ m ∈ c.mounts.reverse, e.cmdOk (umountArgvL m) = true :=
    fun m hm2 => hm m (List.mem_reverse.mp hm2)
  have h1 := unmountAll_ok e c.mounts.reverse c hrev
  have h2 := rmtreeAll_ok e c.tdirs
    { c with trace := c.trace ++ c.mounts.reverse.map (fun m => Event.runCmd (umountArgvL m)) } ht
  simp at h1 h2
  simp [deconfigure, h1, h2, hdry, rmdirOp, hcd, List.append_assoc]

/-- Characterization of a successful `setup_overlay`: one temp directory
is allocated and recorded, `work` and `upper` are created inside it
strictly before the single overlay mount, whose argv carries the exact
options string. -/
theorem setup_overlay_ok (e : Env) (c : St) (dir : String)
    (h : e.cmdOk (mountArgv "overlay" dir
        (some (overlayOpts dir (e.tdirName c.tdirs.length ++ "/upper")
          (e.tdirName c.tdirs.length ++ "/work"))) (some "overlay")) = true) :
    setup_overlay e c dir
      = ({ c with
            mounts := c.mounts ++ [dir],
            tdirs := c.tdirs ++ [e.tdirName c.tdirs.length],
            fs := { c.fs with dirs :=
              (e.tdirName c.tdirs.length ++ "/upper") ::
                (e.tdirName c.tdirs.length ++ "/work") :: c.fs.dirs },
            trace := c.trace ++
              [Event.mkdtempEv (e.tdirName c.tdirs.length),
               Event.mkdirEv (e.tdirName c.tdirs.length ++ "/work"),
               Event.mkdirEv (e.tdirName c.tdirs.length ++ "/upper"),
               Event.runCmd (mountArgv "overlay" dir
                 (some (overlayOpts dir (e.tdirName c.tdirs.length ++ "/upper")
                   (e.tdirName c.tdirs.length ++ "/work"))) (some "overlay"))] },
         true) := by
  simp [setup_overlay, tdir, mkdirOp, mount, h, List.append_assoc]

/-- Characterization of `setup_overlay` when the overlay mount command
fails: the temp directory and subdirectories were already created and
recorded, but nothing is added to the mount ledger. -/
theorem setup_overlay_fail (e : Env) (c : St) (dir : String)
    (h : e.cmdOk (mountArgv "overlay" dir
        (some (overlayOpts dir (e.tdirName c.tdirs.length ++ "/upper")
          (e.tdirName c.tdirs.length ++ "/work"))) (some "overlay")) = false) :
    setup_overlay e c dir
      = ({ c with
            tdirs := c.tdirs ++ [e.tdirName c.tdirs.length],
            fs := { c.fs with dirs :=
              (e.tdirName c.tdirs.length ++ "/upper") ::
                (e.tdirName c.tdirs.length ++ "/work") :: c.fs.dirs },
            trace := c.trace ++
              [Event.mkdtempEv (e.tdirName c.tdirs.length),
               Event.mkdirEv (e.tdirName c.tdirs.length ++ "/work"),
               Event.mkdirEv (e.tdirName c.tdirs.length ++ "/upper"),
               Event.runCmd (mountArgv "overlay" dir
                 (some (overlayOpts dir (e.tdirName c.tdirs.length ++ "/upper")
                   (e.tdirName c.tdirs.length ++ "/work"))) (some "overlay"))] },
         false) := by
  simp [setup_overlay, tdir, mkdirOp, mount, h, List.append_assoc]

/-- Characterization of a successful `configure` when the network is
present at configure time (abstract initial file table `L`, initial
directory list `D`, original source list content `s`). -/
theorem configure_net (e : Env) (L : List (String × String)) (D : List String) (s : String)
    (hall : e.allOk) (hroot : e.root = "/")
    (hnet : e.hasNetwork 0 = true)
    (hsrc : lookupA L "/target/etc/apt/sources.list" = some s) :
    configure e (st0 L D)
      = ({ target := "/target",
           mounts := ["/target/etc/apt", "/target/cdrom"],
           tdirs := [e.tdirName 0],
           fs := { files := setFileL
                     (("/target/etc/apt/sources.list.d/original.list", s) ::
                       eraseKey (eraseKey
                           (setFileL L "/var/log/installer/subiquity-curtin-apt.conf" e.confContent)
                           "/target/etc/apt/sources.list")
                         "/target/etc/apt/sources.list.d/original.list")
                     "/target/etc/apt/sources.list" (sourcesLine e.codename),
                   dirs := "/target/cdrom" :: (e.tdirName 0 ++ "/upper")
                     :: (e.tdirName 0 ++ "/work") :: D },
           trace := [Event.writeFileEv "/var/log/installer/subiquity-curtin-apt.conf" e.confContent,
             Event.curtin ["apt-config", "-t", "/target", "/var/log/installer/subiquity-curtin-apt.conf"],
             Event.mkdtempEv (e.tdirName 0),
             Event.mkdirEv (e.tdirName 0 ++ "/work"),
             Event.mkdirEv (e.tdirName 0 ++ "/upper"),
             Event.runCmd (mountArgv "overlay" "/target/etc/apt"
               (some (overlayOpts "/target/etc/apt" (e.tdirName 0 ++ "/upper")
                 (e.tdirName 0 ++ "/work"))) (some "overlay")),
             Event.mkdirEv "/target/cdrom",
             Event.runCmd (mountArgv "/cdrom" "/target/cdrom" (some "bind") none),
             Event.renameEv "/target/etc/apt/sources.list" "/target/etc/apt/sources.list.d/original.list",
             Event.writeFileEv "/target/etc/apt/sources.list" (sourcesLine e.codename),
             Event.curtin (updArgv "/target")],
           netReads := 1 }, true) := by
  obtain ⟨hcmd, hcur, hrm⟩ := hall
  simp [configure, st0, writeFileOp, mkdirOp, renameOp, unlinkOp, readNetwork,
    setup_overlay, tdir, mount, confPath, confRel, tpath, pjoin, hroot, aptConfigArgv,
    hcmd, hcur, hnet, hsrc, lookupA, eraseKey, setFileL, List.append_assoc,
    lookupA_setFileL_ne, lookupA_eraseKey_ne]

/-- Characterization of a successful `configure` when the network is
absent at configure time and no proxy fragment exists. -/
theorem configure_nonet_noproxy (e : Env) (L : List (String × String)) (D : List String)
    (hall : e.allOk) (hroot : e.root = "/")
    (hnet : e.hasNetwork 0 = false)
    (hpx : lookupA L "/target/etc/apt/apt.conf.d/90curtin-aptproxy" = none) :
    configure e (st0 L D)
      = ({ target := "/target",
           mounts := ["/target/etc/apt", "/target/cdrom", "/target/var/lib/apt/lists"],
           tdirs := [e.tdirName 0, e.tdirName 1],
           fs := { files := setFileL
                     (setFileL L "/var/log/installer/subiquity-curtin-apt.conf" e.confContent)
                     "/target/etc/apt/sources.list" (sourcesLine e.codename),
                   dirs := (e.tdirName 1 ++ "/upper") :: (e.tdirName 1 ++ "/work")
                     :: "/target/cdrom" :: (e.tdirName 0 ++ "/upper")
                     :: (e.tdirName 0 ++ "/work") :: D },
           trace := [Event.writeFileEv "/var/log/installer/subiquity-curtin-apt.conf" e.confContent,
             Event.curtin ["apt-config", "-t", "/target", "/var/log/installer/subiquity-curtin-apt.conf"],
             Event.mkdtempEv (e.tdirName 0),
             Event.mkdirEv (e.tdirName 0 ++ "/work"),
             Event.mkdirEv (e.tdirName 0 ++ "/upper"),
             Event.runCmd (mountArgv "overlay" "/target/etc/apt"
               (some (overlayOpts "/target/etc/apt" (e.tdirName 0 ++ "/upper")
                 (e.tdirName 0 ++ "/work"))) (some "overlay")),
             Event.mkdirEv "/target/cdrom",
             Event.runCmd (mountArgv "/cdrom" "/target/cdrom" (some "bind") none),
             Event.mkdtempEv (e.tdirName 1),
             Event.mkdirEv (e.tdirName 1 ++ "/work"),
             Event.mkdirEv (e.tdirName 1 ++ "/upper"),
             Event.runCmd (mountArgv "overlay" "/target/var/lib/apt/lists"
               (some (overlayOpts "/target/var/lib/apt/lists" (e.tdirName 1 ++ "/upper")
                 (e.tdirName 1 ++ "/work"))) (some "overlay")),
             Event.writeFileEv "/target/etc/apt/sources.list" (sourcesLine e.codename),
             Event.curtin (updArgv "/target")],
           netReads := 1 }, true) := by
  obtain ⟨hcmd, hcur, hrm⟩ := hall
  simp [configure, st0, writeFileOp, mkdirOp, renameOp, unlinkOp, readNetwork,
    setup_overlay, tdir, mount, confPath, confRel, tpath, pjoin, hroot, aptConfigArgv,
    hcmd, hcur, hnet, hpx, lookupA, eraseKey, setFileL, List.append_assoc,
    lookupA_setFileL_ne, lookupA_eraseKey_ne]

/-- Characterization of a successful `configure` when the network is
absent at configure time and a proxy fragment exists: it is unlinked. -/
theorem configure_nonet_proxy (e : Env) (L : List (String × String)) (D : List String)
    (pv : String)
    (hall : e.allOk) (hroot : e.root = "/")
    (hnet : e.hasNetwork 0 = false)
    (hpx : lookupA L "/target/etc/apt/apt.conf.d/90curtin-aptproxy" = some pv) :
    configure e (st0 L D)
      = ({ target := "/target",
           mounts := ["/target/etc/apt", "/target/cdrom", "/target/var/lib/apt/lists"],
           tdirs := [e.tdirName 0, e.tdirName 1],
           fs := { files := setFileL
                     (eraseKey
                       (setFileL L "/var/log/installer/subiquity-curtin-apt.conf" e.confContent)
                       "/target/etc/apt/apt.conf.d/90curtin-aptproxy")
                     "/target/etc/apt/sources.list" (sourcesLine e.codename),
                   dirs := (e.tdirName 1 ++ "/upper") :: (e.tdirName 1 ++ "/work")
                     :: "/target/cdrom" :: (e.tdirName 0 ++ "/upper")
                     :: (e.tdirName 0 ++ "/work") :: D },
           trace := [Event.writeFileEv "/var/log/installer/subiquity-curtin-apt.conf" e.confContent,
             Event.curtin ["apt-config", "-t", "/target", "/var/log/installer/subiquity-curtin-apt.conf"],
             Event.mkdtempEv (e.tdirName 0),
             Event.mkdirEv (e.tdirName 0 ++ "/work"),
             Event.mkdirEv (e.tdirName 0 ++ "/upper"),
             Event.runCmd (mountArgv "overlay" "/target/etc/apt"
               (some (overlayOpts "/target/etc/apt" (e.tdirName 0 ++ "/upper")
                 (e.tdirName 0 ++ "/work"))) (some "overlay")),
             Event.mkdirEv "/target/cdrom",
             Event.runCmd (mountArgv "/cdrom" "/target/cdrom" (some "bind") none),
             Event.unlinkEv "/target/etc/apt/apt.conf.d/90curtin-aptproxy",
             Event.mkdtempEv (e.tdirName 1),
             Event.mkdirEv (e.tdirName 1 ++ "/work"),
             Event.mkdirEv (e.tdirName 1 ++ "/upper"),
             Event.runCmd (mountArgv "overlay" "/target/var/lib/apt/lists"
               (some (overlayOpts "/target/var/lib/apt/lists" (e.tdirName 1 ++ "/upper")
                 (e.tdirName 1 ++ "/work"))) (some "overlay")),
             Event.writeFileEv "/target/etc/apt/sources.list" (sourcesLine e.codename),
             Event.curtin (updArgv "/target")],
           netReads := 1 }, true) := by
  obtain ⟨hcmd, hcur, hrm⟩ := hall
  simp [configure, st0, writeFileOp, mkdirOp, renameOp, unlinkOp, readNetwork,
    setup_overlay, tdir, mount, confPath, confRel, tpath, pjoin, hroot, aptConfigArgv,
    hcmd, hcur, hnet, hpx, lookupA, eraseKey, setFileL, List.append_assoc,
    lookupA_setFileL_ne, lookupA_eraseKey_ne]

theorem filter_isRunCmdE_umount (l : List String) :
    (l.map fun m => Event.runCmd (umountArgvL m)).filter isRunCmdE
      = l.map fun m => Event.runCmd (umountArgvL m) := by
  induction l with
  | nil => rfl
  | cons a l ih => simp [isRunCmdE, ih]

theorem filter_isRunCmdE_rmtree (l : List String) :
    (l.map Event.rmtreeEv).filter isRunCmdE = [] := by
  induction l with
  | nil => rfl
  | cons a l ih => simp [isRunCmdE, ih]

theorem filter_isRmtreeE_umount (l : List String) :
    (l.map fun m => Event.runCmd (umountArgvL m)).filter isRmtreeE = [] := by
  induction l with
  | nil => rfl
  | cons a l ih => simp [isRmtreeE, ih]

theorem filter_isRmtreeE_rmtree (l : List String) :
    (l.map Event.rmtreeEv).filter isRmtreeE = l.map Event.rmtreeEv := by
  induction l with
  | nil => rfl
  | cons a l ih => simp [isRmtreeE, ih]

theorem filter_notRmdir_umount (l : List String) :
    (l.map fun m => Event.runCmd (umountArgvL m)).filter (fun ev => !(isRmdirE ev))
      = l.map fun m => Event.runCmd (umountArgvL m) := by
  induction l with
  | nil => rfl
  | cons a l ih => simp [isRmdirE, ih]

theorem filter_notRmdir_rmtree (l : List String) :
    (l.map Event.rmtreeEv).filter (fun ev => !(isRmdirE ev)) = l.map Event.rmtreeEv := by
  induction l with
  | nil => rfl
  | cons a l ih => simp [isRmdirE, ih]

theorem rmtreeAll_trace_shape (e : Env) (ds : List String) (c : St) :
    ∃ ds2 : List String, (rmtreeAll e ds c).1.trace = c.trace ++ ds2.map Event.rmtreeEv := by
  induction ds generalizing c with
  | nil => exact ⟨[], by simp [rmtreeAll]⟩
  | cons d ds ih =>
      by_cases h : e.rmtreeOk d = true
      · obtain ⟨ds2, hds2⟩ := ih { c with trace := c.trace ++ [Event.rmtreeEv d] }
        refine ⟨d :: ds2, ?_⟩
        simp [rmtreeAll, h] at hds2 ⊢
        simp [hds2]
      · refine ⟨[d], ?_⟩
        simp at h
        simp [rmtreeAll, h]

/-- With every unmount succeeding, the OS commands issued by
`deconfigure` are exactly one `umount` per ledger record, in reverse
insertion order — whatever happens in the later phases. -/
theorem deconfigure_osCmds (e : Env) (c : St)
    (hm : ∀ m ∈ c.mounts, e.cmdOk (umountArgvL m) = true) :
    osCmds (deconfigureTrace e c)
      = c.mounts.reverse.map (fun m => Event.runCmd (umountArgvL m)) := by
  have hrev : ∀ m ∈ c.mounts.reverse, e.cmdOk (umountArgvL m) = true :=
    fun m hm2 => hm m (List.mem_reverse.mp hm2)
  have h1 := unmountAll_ok e c.mounts.reverse c hrev
  simp at h1
  unfold deconfigureTrace deconfigure
  rw [h1]
  obtain ⟨ds2, hsh⟩ := rmtreeAll_trace_shape e c.tdirs
    { c with trace := c.trace ++ (c.mounts.map fun m => Event.runCmd (umountArgvL m)).reverse }
  cases h2 : rmtreeAll e c.tdirs
      { c with trace := c.trace ++ (c.mounts.map fun m => Event.runCmd (umountArgvL m)).reverse } with
  | mk c2 ok2 =>
      rw [h2] at hsh
      simp only at hsh
      have ht2 : c2.trace = c.trace
          ++ (c.mounts.map fun m => Event.runCmd (umountArgvL m)).reverse
          ++ ds2.map Event.rmtreeEv := hsh
      have htg2 : c2.target = c.target := by
        have h3 := (rmtreeAll_inv e c.tdirs
          { c with trace := c.trace
              ++ (c.mounts.map fun m => Event.runCmd (umountArgvL m)).reverse }).2.2.2.2
        rw [h2] at h3
        simpa using h3
      cases ok2 with
      | false =>
          simp [osCmds, h2, ht2, List.filter_append, filter_isRunCmdE_umount,
            filter_isRunCmdE_rmtree, List.append_assoc]
      | true =>
          cases hd : e.dryRun with
          | true =>
              cases hn : e.hasNetwork c2.netReads <;>
                simp [osCmds, h2, hd, readNetwork, hn, ht2, List.filter_append,
                  filter_isRunCmdE_umount, filter_isRunCmdE_rmtree, isRunCmdE,
                  List.append_assoc]
          | false =>
              by_cases hcd : tpath c2.target "cdrom" ∈ c2.fs.dirs
              · cases hn : e.hasNetwork c2.netReads <;>
                  simp [osCmds, h2, hd, rmdirOp, hcd, readNetwork, hn, ht2,
                    List.filter_append, filter_isRunCmdE_umount,
                    filter_isRunCmdE_rmtree, isRunCmdE, List.append_assoc]
              · simp [osCmds, h2, hd, rmdirOp, hcd, ht2, List.filter_append,
                  filter_isRunCmdE_umount, filter_isRunCmdE_rmtree, isRunCmdE,
                  List.append_assoc]

/-- With every recorded unmount and removal succeeding and dry-run off,
the events emitted by `deconfigure` are: one umount per ledger record in
reverse order, one rmtree per recorded temp directory, and an attempt to
remove the media mountpoint directory — whether or not it exists. -/
theorem deconfigure_calls (e : Env) (c : St)
    (hm : ∀ m ∈ c.mounts, e.cmdOk (umountArgvL m) = true)
    (ht : ∀ d ∈ c.tdirs, e.rmtreeOk d = true)
    (hdry : e.dryRun = false) :
    osCmds (deconfigureTrace e c)
      = c.mounts.reverse.map (fun m => Event.runCmd (umountArgvL m)) ∧
    rmtreeCalls (deconfigureTrace e c) = c.tdirs.map Event.rmtreeEv ∧
    Event.rmdirEv (tpath c.target "cdrom") ∈ deconfigureTrace e c := by
  refine ⟨deconfigure_osCmds e c hm, ?_, ?_⟩
  · by_cases hcd : tpath c.target "cdrom" ∈ c.fs.dirs
    · unfold deconfigureTrace
      rw [deconfigure_wet e c hm ht hdry hcd]
      cases hn : e.hasNetwork c.netReads <;>
        simp [rmtreeCalls, hn, List.filter_append, filter_isRmtreeE_umount,
          filter_isRmtreeE_rmtree, isRmtreeE, List.append_assoc]
    · unfold deconfigureTrace
      rw [deconfigure_rmdir_fail e c hm ht hdry hcd]
      simp [rmtreeCalls, List.filter_append, filter_isRmtreeE_umount,
        filter_isRmtreeE_rmtree, isRmtreeE, List.append_assoc]
  · by_cases hcd : tpath c.target "cdrom" ∈ c.fs.dirs
    · unfold deconfigureTrace
      rw [deconfigure_wet e c hm ht hdry hcd]
      cases hn : e.hasNetwork c.netReads <;>
        simp [hn, List.append_assoc]
    · unfold deconfigureTrace
      rw [deconfigure_rmdir_fail e c hm ht hdry hcd]
      simp [List.append_assoc]

/-- Characterization of `deconfigure` when unmounting one of the
recorded mounts fails: the previous unmounts were issued, the failing
one was issued, and nothing else happens. -/
theorem deconfigure_unmount_fail (e : Env) (c : St)
    (ms1 : List String) (m : String) (ms2 : List String)
    (hsplit : c.mounts.reverse = ms1 ++ m :: ms2)
    (h1 : ∀ x ∈ ms1, e.cmdOk (umountArgvL x) = true)
    (hmf : e.cmdOk (umountArgvL m) = false) :
    deconfigure e c
      = ({ c with trace := c.trace
            ++ (ms1 ++ [m]).map (fun x => Event.runCmd (umountArgvL x)) }, false) := by
  have hu := unmountAll_fail e ms1 m ms2 c h1 hmf
  unfold deconfigure
  rw [hsplit, hu]
  simp

/-- Characterization of `configure` when the media bind mount fails: the
config overlay is staged and recorded, the media mountpoint directory is
created, then the failing mount aborts the procedure before the network
flag is ever read. -/
theorem configure_bind_fail (e : Env) (L : List (String × String)) (D : List String)
    (hroot : e.root = "/")
    (hcur : e.curtinOk
      ["apt-config", "-t", "/target", "/var/log/installer/subiquity-curtin-apt.conf"] = true)
    (hov : e.cmdOk (mountArgv "overlay" "/target/etc/apt"
      (some (overlayOpts "/target/etc/apt" (e.tdirName 0 ++ "/upper")
        (e.tdirName 0 ++ "/work"))) (some "overlay")) = true)
    (hbind : e.cmdOk (mountArgv "/cdrom" "/target/cdrom" (some "bind") none) = false) :
    configure e (st0 L D)
      = ({ target := "/target",
           mounts := ["/target/etc/apt"],
           tdirs := [e.tdirName 0],
           fs := { files := setFileL L "/var/log/installer/subiquity-curtin-apt.conf"
                     e.confContent,
                   dirs := "/target/cdrom" :: (e.tdirName 0 ++ "/upper")
                     :: (e.tdirName 0 ++ "/work") :: D },
           trace := [Event.writeFileEv "/var/log/installer/subiquity-curtin-apt.conf"
               e.confContent,
             Event.curtin ["apt-config", "-t", "/target",
               "/var/log/installer/subiquity-curtin-apt.conf"],
             Event.mkdtempEv (e.tdirName 0),
             Event.mkdirEv (e.tdirName 0 ++ "/work"),
             Event.mkdirEv (e.tdirName 0 ++ "/upper"),
             Event.runCmd (mountArgv "overlay" "/target/etc/apt"
               (some (overlayOpts "/target/etc/apt" (e.tdirName 0 ++ "/upper")
                 (e.tdirName 0 ++ "/work"))) (some "overlay")),
             Event.mkdirEv "/target/cdrom",
             Event.runCmd (mountArgv "/cdrom" "/target/cdrom" (some "bind") none)],
           netReads := 0 }, false) := by
  simp [configure, st0, writeFileOp, mkdirOp, setup_overlay, tdir, mount, confPath,
    confRel, tpath, pjoin, hroot, aptConfigArgv, hcur, hov, hbind, lookupA, eraseKey,
    setFileL, List.append_assoc]

theorem isRmdirE_runCmd (a : List String) : isRmdirE (Event.runCmd a) = false := rfl

theorem isRmdirE_curtin (a : List String) : isRmdirE (Event.curtin a) = false := rfl

theorem isRmdirE_rmtree (p : String) : isRmdirE (Event.rmtreeEv p) = false := rfl

theorem isRmdirE_rmdir (p : String) : isRmdirE (Event.rmdirEv p) = true := rfl

end Lemmas


/-- C1 counterexample: the claim states that after deconfigure returns,
the mount ledger `_mounts` is empty.  On the code this is false: the
loop `for m in reversed(self._mounts)` never removes records.  After a
fully successful configure (2 recorded mounts) and a fully successful
deconfigure, `_mounts` still holds both records. -/
theorem c1_counterexample :
    (configure envA c0).2 = true ∧
    (deconfigure envA (configure envA c0).1).2 = true ∧
    (deconfigure envA (configure envA c0).1).1.mounts
      = ["/target/etc/apt", "/target/cdrom"] := by
  decide

/-- C1 (amended): after deconfigure on a stager whose configure performed
N successful mounts (all unmounts succeeding), exactly one umount
command is issued per recorded mount, in reverse insertion order, but
the records are never removed: `_mounts` is unchanged when deconfigure
returns. -/
theorem c1_ledger_never_emptied (e : Env) (c : St)
    (hm : ∀ m ∈ c.mounts, e.cmdOk (umountArgvL m) = true) :
    (deconfigure e c).1.mounts = c.mounts ∧
    osCmds (deconfigureTrace e c)
      = c.mounts.reverse.map (fun m => Event.runCmd (umountArgvL m)) :=
  ⟨(deconfigure_inv e c).1, deconfigure_osCmds e c hm⟩

/-- C1 witness: the amended claim instantiated after a successful
configure with two recorded mounts. -/
theorem c1_witness :
    (deconfigure envA (configure envA c0).1).1.mounts = (configure envA c0).1.mounts ∧
    osCmds (deconfigureTrace envA (configure envA c0).1)
      = ((configure envA c0).1.mounts).reverse.map (fun m => Event.runCmd (umountArgvL m)) :=
  c1_ledger_never_emptied envA (configure envA c0).1 (by decide)

/-- C2 counterexample: the claim states deconfigure acts only on what
the ledgers recorded and never references resources from steps that did
not run.  False on the code: after a configure aborted at the very first
curtin call (no mounts, no temp dirs, no mkdir of the media mountpoint),
deconfigure still attempts `os.rmdir(target/cdrom)`. -/
theorem c2_counterexample :
    (configure envCurtinFail c0).2 = false ∧
    (configure envCurtinFail c0).1.mounts = [] ∧
    (configure envCurtinFail c0).1.tdirs = [] ∧
    Event.mkdirEv "/target/cdrom" ∉ (configure envCurtinFail c0).1.trace ∧
    Event.rmdirEv "/target/cdrom"
      ∈ deconfigureTrace envCurtinFail (configure envCurtinFail c0).1 := by
  decide

/-- C2 (amended): deconfigure unmounts exactly the recorded mounts (in
reverse order) and issues exactly one rmtree per recorded temp
directory, but — outside dry-run mode — it additionally always attempts
to remove the media mountpoint directory, whether or not the configure
step that creates it ever ran. -/
theorem c2_deconfigure_scope (e : Env) (c : St)
    (hm : ∀ m ∈ c.mounts, e.cmdOk (umountArgvL m) = true)
    (ht : ∀ d ∈ c.tdirs, e.rmtreeOk d = true)
    (hdry : e.dryRun = false) :
    osCmds (deconfigureTrace e c)
      = c.mounts.reverse.map (fun m => Event.runCmd (umountArgvL m)) ∧
    rmtreeCalls (deconfigureTrace e c) = c.tdirs.map Event.rmtreeEv ∧
    Event.rmdirEv (tpath c.target "cdrom") ∈ deconfigureTrace e c :=
  deconfigure_calls e c hm ht hdry

/-- C2 witness: the amended claim instantiated after a successful
configure. -/
theorem c2_witness :
    osCmds (deconfigureTrace envA (configure envA c0).1)
      = ((configure envA c0).1.mounts).reverse.map (fun m => Event.runCmd (umountArgvL m)) ∧
    rmtreeCalls (deconfigureTrace envA (configure envA c0).1)
      = ((configure envA c0).1.tdirs).map Event.rmtreeEv ∧
    Event.rmdirEv (tpath (configure envA c0).1.target "cdrom")
      ∈ deconfigureTrace envA (configure envA c0).1 :=
  c2_deconfigure_scope envA (configure envA c0).1 (by decide) (by decide) (by decide)

/-- C3 counterexample: the claim states that a failed temp-directory
removal does not prevent attempting the remaining removals.  False on
the code: `shutil.rmtree` raises and the unprotected loop aborts.  With
two recorded temp directories and removal of the first failing, the
second is never attempted and deconfigure fails. -/
theorem c3_counterexample :
    (configure envRmtreeFail c0).1.tdirs = ["/tmp/t0", "/tmp/t1"] ∧
    (deconfigure envRmtreeFail (configure envRmtreeFail c0).1).2 = false ∧
    Event.rmtreeEv "/tmp/t0"
      ∈ deconfigureTrace envRmtreeFail (configure envRmtreeFail c0).1 ∧
    Event.rmtreeEv "/tmp/t1"
      ∉ (deconfigure envRmtreeFail (configure envRmtreeFail c0).1).1.trace := by
  decide

/-- C3 (amended): during the temp-directory release phase of
deconfigure, a failure to remove one recorded directory propagates
immediately: the directories before it in the ledger are attempted, the
failing one is attempted, and the remaining recorded directories are
never attempted. -/
theorem c3_rmtree_fail_fast (e : Env) (c : St)
    (ds1 : List String) (d : String) (ds2 : List String)
    (hsplit : c.tdirs = ds1 ++ d :: ds2)
    (h1 : ∀ x ∈ ds1, e.rmtreeOk x = true)
    (hd : e.rmtreeOk d = false)
    (hm : ∀ m ∈ c.mounts, e.cmdOk (umountArgvL m) = true) :
    (deconfigure e c).2 = false ∧
    deconfigureTrace e c
      = c.mounts.reverse.map (fun m => Event.runCmd (umountArgvL m))
        ++ (ds1 ++ [d]).map Event.rmtreeEv := by
  have hrev : ∀ m ∈ c.mounts.reverse, e.cmdOk (umountArgvL m) = true :=
    fun m hm2 => hm m (List.mem_reverse.mp hm2)
  have hu := unmountAll_ok e c.mounts.reverse c hrev
  simp at hu
  have hr := rmtreeAll_fail e ds1 d ds2
    { c with tdirs := ds1 ++ d :: ds2,
             trace := c.trace
               ++ (c.mounts.map fun m => Event.runCmd (umountArgvL m)).reverse } h1 hd
  simp at hr
  unfold deconfigureTrace deconfigure
  rw [hu]
  simp only [hsplit]
  rw [hr]
  simp [List.append_assoc]

/-- C3 witness: the amended claim instantiated at a configure with two
temp directories, the first of which cannot be removed. -/
theorem c3_witness :
    (deconfigure envRmtreeFail (configure envRmtreeFail c0).1).2 = false ∧
    deconfigureTrace envRmtreeFail (configure envRmtreeFail c0).1
      = ((configure envRmtreeFail c0).1.mounts).reverse.map
          (fun m => Event.runCmd (umountArgvL m))
        ++ ([] ++ ["/tmp/t0"]).map Event.rmtreeEv :=
  c3_rmtree_fail_fast envRmtreeFail (configure envRmtreeFail c0).1 [] "/tmp/t0" ["/tmp/t1"]
    (by decide) (by decide) (by decide) (by decide)

/-- C5: for every ledger of successfully recorded mounts, deconfigure
issues exactly one unmount per recorded mountpoint, in exactly the
reverse of insertion order; and if one unmount fails, the failure
propagates immediately, aborting the remaining unmounts. -/
theorem c5_unmount_reverse_fail_fast (e : Env) (c : St) :
    ((∀ m ∈ c.mounts, e.cmdOk (umountArgvL m) = true) →
      osCmds (deconfigureTrace e c)
        = c.mounts.reverse.map (fun m => Event.runCmd (umountArgvL m)))
    ∧ ∀ ms1 m ms2, c.mounts.reverse = ms1 ++ m :: ms2 →
        (∀ x ∈ ms1, e.cmdOk (umountArgvL x) = true) →
        e.cmdOk (umountArgvL m) = false →
        (deconfigure e c).2 = false ∧
        deconfigureTrace e c
          = (ms1 ++ [m]).map (fun x => Event.runCmd (umountArgvL x)) := by
  constructor
  · exact fun hm => deconfigure_osCmds e c hm
  · intro ms1 m ms2 hsplit h1 hmf
    have hchar := deconfigure_unmount_fail e c ms1 m ms2 hsplit h1 hmf
    constructor
    · rw [hchar]
    · unfold deconfigureTrace
      rw [hchar]
      simp

/-- C5 witness: both halves instantiated — the success half after a
fully successful configure, the failure half in an environment where
unmounting the media bind mount fails (it is the first unmount issued). -/
theorem c5_witness :
    (osCmds (deconfigureTrace envA (configure envA c0).1)
      = ((configure envA c0).1.mounts).reverse.map (fun m => Event.runCmd (umountArgvL m)))
    ∧ ((deconfigure envUmountFail (configure envUmountFail c0).1).2 = false ∧
       deconfigureTrace envUmountFail (configure envUmountFail c0).1
         = ([] ++ ["/target/cdrom"]).map (fun x => Event.runCmd (umountArgvL x))) :=
  ⟨(c5_unmount_reverse_fail_fast envA (configure envA c0).1).1 (by decide),
   (c5_unmount_reverse_fail_fast envUmountFail (configure envUmountFail c0).1).2
     [] "/target/cdrom" ["/target/etc/apt"] (by decide) (by decide) (by decide)⟩


/-- C4 counterexample: the claim states that when the bind mount of
/cdrom fails, the media mountpoint directory is never created and never
removed.  False on the code: `os.mkdir(target/cdrom)` runs immediately
before the failing mount, so the directory exists, and a subsequent
deconfigure (outside dry-run) removes it. -/
theorem c4_counterexample :
    (configure envBindFail c0).2 = false ∧
    Event.mkdirEv "/target/cdrom" ∈ (configure envBindFail c0).1.trace ∧
    "/target/cdrom" ∈ (configure envBindFail c0).1.fs.dirs ∧
    (deconfigure envBindFail (configure envBindFail c0).1).2 = true ∧
    "/target/cdrom" ∉ (deconfigure envBindFail (configure envBindFail c0).1).1.fs.dirs := by
  decide

/-- C4 (amended): if configure fails at the media bind mount, deconfigure
on the resulting state unmounts exactly 1 mount (the etc/apt config
overlay) and issues exactly one rmtree (for that overlay temp
directory); the media mountpoint directory IS created, just before the
failing mount, and deconfigure (outside dry-run) attempts its removal. -/
theorem c4_media_mount_fail (e : Env) (L : List (String × String)) (D : List String)
    (hroot : e.root = "/")
    (hcur : e.curtinOk
      ["apt-config", "-t", "/target", "/var/log/installer/subiquity-curtin-apt.conf"] = true)
    (hov : e.cmdOk (mountArgv "overlay" "/target/etc/apt"
      (some (overlayOpts "/target/etc/apt" (e.tdirName 0 ++ "/upper")
        (e.tdirName 0 ++ "/work"))) (some "overlay")) = true)
    (hbind : e.cmdOk (mountArgv "/cdrom" "/target/cdrom" (some "bind") none) = false)
    (hum : e.cmdOk (umountArgvL "/target/etc/apt") = true)
    (hrt : e.rmtreeOk (e.tdirName 0) = true)
    (hdry : e.dryRun = false) :
    (configure e (st0 L D)).2 = false ∧
    (configure e (st0 L D)).1.mounts = ["/target/etc/apt"] ∧
    (configure e (st0 L D)).1.tdirs = [e.tdirName 0] ∧
    Event.mkdirEv "/target/cdrom" ∈ (configure e (st0 L D)).1.trace ∧
    osCmds (deconfigureTrace e (configure e (st0 L D)).1)
      = [Event.runCmd (umountArgvL "/target/etc/apt")] ∧
    rmtreeCalls (deconfigureTrace e (configure e (st0 L D)).1)
      = [Event.rmtreeEv (e.tdirName 0)] ∧
    Event.rmdirEv "/target/cdrom" ∈ deconfigureTrace e (configure e (st0 L D)).1 := by
  rw [configure_bind_fail e L D hroot hcur hov hbind]
  obtain ⟨hA, hB, hC⟩ := deconfigure_calls e
    ({ target := "/target",
       mounts := ["/target/etc/apt"],
       tdirs := [e.tdirName 0],
       fs := { files := setFileL L "/var/log/installer/subiquity-curtin-apt.conf"
                 e.confContent,
               dirs := "/target/cdrom" :: (e.tdirName 0 ++ "/upper")
                 :: (e.tdirName 0 ++ "/work") :: D },
       trace := [Event.writeFileEv "/var/log/installer/subiquity-curtin-apt.conf"
           e.confContent,
         Event.curtin ["apt-config", "-t", "/target",
           "/var/log/installer/subiquity-curtin-apt.conf"],
         Event.mkdtempEv (e.tdirName 0),
         Event.mkdirEv (e.tdirName 0 ++ "/work"),
         Event.mkdirEv (e.tdirName 0 ++ "/upper"),
         Event.runCmd (mountArgv "overlay" "/target/etc/apt"
           (some (overlayOpts "/target/etc/apt" (e.tdirName 0 ++ "/upper")
             (e.tdirName 0 ++ "/work"))) (some "overlay")),
         Event.mkdirEv "/target/cdrom",
         Event.runCmd (mountArgv "/cdrom" "/target/cdrom" (some "bind") none)],
       netReads := 0 } : St)
    (by intro m hm2; simp at hm2; simp [hm2, hum])
    (by intro d hd2; simp at hd2; simp [hd2, hrt])
    hdry
  simp only at hA hB hC
  refine ⟨rfl, rfl, rfl, by simp, ?_, ?_, ?_⟩
  · simpa using hA
  · simpa using hB
  · simpa [tpath, pjoin] using hC

/-- C4 witness: the amended claim instantiated in an environment where
only the media bind mount fails. -/
theorem c4_witness :
    (configure envBindFail c0).2 = false ∧
    (configure envBindFail c0).1.mounts = ["/target/etc/apt"] ∧
    (configure envBindFail c0).1.tdirs = [envBindFail.tdirName 0] ∧
    Event.mkdirEv "/target/cdrom" ∈ (configure envBindFail c0).1.trace ∧
    osCmds (deconfigureTrace envBindFail (configure envBindFail c0).1)
      = [Event.runCmd (umountArgvL "/target/etc/apt")] ∧
    rmtreeCalls (deconfigureTrace envBindFail (configure envBindFail c0).1)
      = [Event.rmtreeEv (envBindFail.tdirName 0)] ∧
    Event.rmdirEv "/target/cdrom"
      ∈ deconfigureTrace envBindFail (configure envBindFail c0).1 :=
  c4_media_mount_fail envBindFail [("/target/etc/apt/sources.list", "orig")] []
    rfl (by decide) (by decide) (by decide) (by decide) (by decide) rfl

/-- C6: with the network present and codename focal, a successful
configure leaves target/etc/apt/sources.list containing exactly the
one-line cdrom source entry, preserves the original source list as
sources.list.d/original.list, and records exactly two mounts, config
overlay first, media bind second. -/
theorem c6_network_focal (e : Env) (L : List (String × String)) (D : List String) (s : String)
    (hall : e.allOk) (hroot : e.root = "/")
    (hnet : e.hasNetwork 0 = true)
    (hcode : e.codename = "focal")
    (hsrc : lookupA L "/target/etc/apt/sources.list" = some s) :
    (configure e (st0 L D)).2 = true ∧
    lookupA (configure e (st0 L D)).1.fs.files "/target/etc/apt/sources.list"
      = some "deb [check-date=no] file:///cdrom focal main restricted\n" ∧
    lookupA (configure e (st0 L D)).1.fs.files
      "/target/etc/apt/sources.list.d/original.list" = some s ∧
    (configure e (st0 L D)).1.mounts = ["/target/etc/apt", "/target/cdrom"] := by
  rw [configure_net e L D s hall hroot hnet hsrc]
  refine ⟨rfl, ?_, ?_, rfl⟩
  · rw [lookupA_setFileL_self]
    simp [sourcesLine, hcode]
  · rw [lookupA_setFileL_ne _ _ _ _ (by decide)]
    simp [lookupA]

/-- C6 witness: instantiation in the all-success network-present
environment. -/
theorem c6_witness :
    (configure envA c0).2 = true ∧
    lookupA (configure envA c0).1.fs.files "/target/etc/apt/sources.list"
      = some "deb [check-date=no] file:///cdrom focal main restricted\n" ∧
    lookupA (configure envA c0).1.fs.files
      "/target/etc/apt/sources.list.d/original.list" = some "orig" ∧
    (configure envA c0).1.mounts = ["/target/etc/apt", "/target/cdrom"] :=
  c6_network_focal envA [("/target/etc/apt/sources.list", "orig")] [] "orig"
    ⟨fun _ => rfl, fun _ => rfl, fun _ => rfl⟩ rfl rfl rfl (by decide)

/-- C7: with the network absent, a successful configure records exactly
three mounts, in order: the etc/apt config overlay, the media bind
mount, and the var/lib/apt/lists index-cache overlay; the proxy-config
fragment is absent afterwards, whether or not it existed before. -/
theorem c7_no_network (e : Env) (L : List (String × String)) (D : List String)
    (hall : e.allOk) (hroot : e.root = "/")
    (hnet : e.hasNetwork 0 = false) :
    (configure e (st0 L D)).2 = true ∧
    (configure e (st0 L D)).1.mounts
      = ["/target/etc/apt", "/target/cdrom", "/target/var/lib/apt/lists"] ∧
    lookupA (configure e (st0 L D)).1.fs.files
      "/target/etc/apt/apt.conf.d/90curtin-aptproxy" = none := by
  cases hpx : lookupA L "/target/etc/apt/apt.conf.d/90curtin-aptproxy" with
  | none =>
      rw [configure_nonet_noproxy e L D hall hroot hnet hpx]
      refine ⟨rfl, rfl, ?_⟩
      rw [lookupA_setFileL_ne _ _ _ _ (by decide), lookupA_setFileL_ne _ _ _ _ (by decide)]
      exact hpx
  | some pv =>
      rw [configure_nonet_proxy e L D pv hall hroot hnet hpx]
      refine ⟨rfl, rfl, ?_⟩
      rw [lookupA_setFileL_ne _ _ _ _ (by decide)]
      exact lookupA_eraseKey_self _ _

/-- C7 witness: instantiation in the all-success network-absent
environment, with a proxy fragment present beforehand. -/
theorem c7_witness :
    (configure envNoNet c0p).2 = true ∧
    (configure envNoNet c0p).1.mounts
      = ["/target/etc/apt", "/target/cdrom", "/target/var/lib/apt/lists"] ∧
    lookupA (configure envNoNet c0p).1.fs.files
      "/target/etc/apt/apt.conf.d/90curtin-aptproxy" = none :=
  c7_no_network envNoNet
    [("/target/etc/apt/sources.list", "orig"),
     ("/target/etc/apt/apt.conf.d/90curtin-aptproxy", "proxy")] []
    ⟨fun _ => rfl, fun _ => rfl, fun _ => rfl⟩ rfl rfl

/-- C8: `setup_overlay` on a directory allocates exactly one new temp
directory recorded in the pool, creates the work and upper
subdirectories inside it strictly before the mount call, and issues
exactly one mount with source overlay, mountpoint the directory, fstype
overlay, and the exact lowerdir/upperdir/workdir options string. -/
theorem c8_overlay_builder (e : Env) (c : St) (dir : String)
    (h : e.cmdOk (mountArgv "overlay" dir
        (some (overlayOpts dir (e.tdirName c.tdirs.length ++ "/upper")
          (e.tdirName c.tdirs.length ++ "/work"))) (some "overlay")) = true) :
    setup_overlay e c dir
      = ({ c with
            mounts := c.mounts ++ [dir],
            tdirs := c.tdirs ++ [e.tdirName c.tdirs.length],
            fs := { c.fs with dirs :=
              (e.tdirName c.tdirs.length ++ "/upper") ::
                (e.tdirName c.tdirs.length ++ "/work") :: c.fs.dirs },
            trace := c.trace ++
              [Event.mkdtempEv (e.tdirName c.tdirs.length),
               Event.mkdirEv (e.tdirName c.tdirs.length ++ "/work"),
               Event.mkdirEv (e.tdirName c.tdirs.length ++ "/upper"),
               Event.runCmd (mountArgv "overlay" dir
                 (some (overlayOpts dir (e.tdirName c.tdirs.length ++ "/upper")
                   (e.tdirName c.tdirs.length ++ "/work"))) (some "overlay"))] },
         true) :=
  setup_overlay_ok e c dir h

/-- C8 witness: instantiation on a fresh configurer and directory /d. -/
theorem c8_witness :
    setup_overlay envA c0 "/d"
      = ({ c0 with
            mounts := c0.mounts ++ ["/d"],
            tdirs := c0.tdirs ++ [envA.tdirName c0.tdirs.length],
            fs := { c0.fs with dirs :=
              (envA.tdirName c0.tdirs.length ++ "/upper") ::
                (envA.tdirName c0.tdirs.length ++ "/work") :: c0.fs.dirs },
            trace := c0.trace ++
              [Event.mkdtempEv (envA.tdirName c0.tdirs.length),
               Event.mkdirEv (envA.tdirName c0.tdirs.length ++ "/work"),
               Event.mkdirEv (envA.tdirName c0.tdirs.length ++ "/upper"),
               Event.runCmd (mountArgv "overlay" "/d"
                 (some (overlayOpts "/d" (envA.tdirName c0.tdirs.length ++ "/upper")
                   (envA.tdirName c0.tdirs.length ++ "/work"))) (some "overlay"))] },
         true) :=
  c8_overlay_builder envA c0 "/d" rfl


/-- C9: deconfigure runs the in-target package-index refresh if and only
if the network flag is true at deconfigure time.  The flag is re-read
(read index 1) rather than reusing the value captured during configure
(read index 0), so two runs identical except for a network-state change
between configure and deconfigure differ in whether the refresh runs. -/
theorem c9_refresh_requeries_network (e : Env) (L : List (String × String)) (D : List String)
    (s : String)
    (hall : e.allOk) (hroot : e.root = "/")
    (hn0 : e.hasNetwork 0 = true)
    (hsrc : lookupA L "/target/etc/apt/sources.list" = some s)
    (hdry : e.dryRun = false) :
    (configure e (st0 L D)).1.netReads = 1 ∧
    ((Event.curtin (updArgv "/target")
        ∈ deconfigureTrace e (configure e (st0 L D)).1)
      ↔ e.hasNetwork 1 = true) := by
  obtain ⟨hcmd, hcur, hrm⟩ := hall
  rw [configure_net e L D s ⟨hcmd, hcur, hrm⟩ hroot hn0 hsrc]
  refine ⟨rfl, ?_⟩
  unfold deconfigureTrace
  rw [deconfigure_wet e _ (by intro m hm2; exact hcmd _) (by intro d hd2; exact hrm _)
    hdry (by simp [tpath, pjoin])]
  cases hn1 : e.hasNetwork 1 <;>
    simp [hn1, updArgv, List.append_assoc]

/-- C9 witness: instantiation in an environment whose network flag is
true at read index 0 (configure) and false at read index 1
(deconfigure): the refresh does not run. -/
theorem c9_witness :
    (configure envNetFlip (st0 [("/target/etc/apt/sources.list", "orig")] [])).1.netReads = 1 ∧
    ((Event.curtin (updArgv "/target")
        ∈ deconfigureTrace envNetFlip
            (configure envNetFlip (st0 [("/target/etc/apt/sources.list", "orig")] [])).1)
      ↔ envNetFlip.hasNetwork 1 = true) :=
  c9_refresh_requeries_network envNetFlip [("/target/etc/apt/sources.list", "orig")] [] "orig"
    ⟨fun _ => rfl, fun _ => rfl, fun _ => rfl⟩ rfl rfl (by decide) rfl

/-- C10: in deconfigure, dry-run mode alters exactly one step — the
removal of the media mountpoint directory is skipped; the emitted event
sequence is otherwise identical (all unmounts, all recorded
temp-directory removals, and the network-conditional refresh still run),
the ledgers are untouched either way, and the returned outcome is the
same. -/
theorem c10_dry_run_skips_only_rmdir (e : Env) (c : St)
    (hm : ∀ m ∈ c.mounts, e.cmdOk (umountArgvL m) = true)
    (ht : ∀ d ∈ c.tdirs, e.rmtreeOk d = true)
    (hdry : e.dryRun = false)
    (hcd : tpath c.target "cdrom" ∈ c.fs.dirs) :
    deconfigureTrace { e with dryRun := true } c
      = (deconfigureTrace e c).filter (fun ev => !(isRmdirE ev)) ∧
    Event.rmdirEv (tpath c.target "cdrom") ∈ deconfigureTrace e c ∧
    (deconfigure { e with dryRun := true } c).1.mounts = (deconfigure e c).1.mounts ∧
    (deconfigure { e with dryRun := true } c).1.tdirs = (deconfigure e c).1.tdirs ∧
    (deconfigure { e with dryRun := true } c).2 = (deconfigure e c).2 := by
  have hwet := deconfigure_wet e c hm ht hdry hcd
  have hdry2 := deconfigure_dry { e with dryRun := true } c hm ht rfl
  refine ⟨?_, ?_, ?_, ?_, ?_⟩
  · unfold deconfigureTrace
    rw [hwet, hdry2]
    cases hn : e.hasNetwork c.netReads <;>
      simp [hn, List.filter_append, filter_notRmdir_umount, filter_notRmdir_rmtree,
        isRmdirE_runCmd, isRmdirE_curtin, isRmdirE_rmtree, isRmdirE_rmdir,
        List.append_assoc]
  · unfold deconfigureTrace
    rw [hwet]
    cases hn : e.hasNetwork c.netReads <;> simp [hn, List.append_assoc]
  · rw [(deconfigure_inv { e with dryRun := true } c).1, (deconfigure_inv e c).1]
  · rw [(deconfigure_inv { e with dryRun := true } c).2, (deconfigure_inv e c).2]
  · rw [hwet, hdry2]

/-- C10 witness: instantiation after a successful configure, comparing
the all-success environment with its dry-run twin. -/
theorem c10_witness :
    deconfigureTrace { envA with dryRun := true } (configure envA c0).1
      = (deconfigureTrace envA (configure envA c0).1).filter (fun ev => !(isRmdirE ev)) ∧
    Event.rmdirEv (tpath (configure envA c0).1.target "cdrom")
      ∈ deconfigureTrace envA (configure envA c0).1 ∧
    (deconfigure { envA with dryRun := true } (configure envA c0).1).1.mounts
      = (deconfigure envA (configure envA c0).1).1.mounts ∧
    (deconfigure { envA with dryRun := true } (configure envA c0).1).1.tdirs
      = (deconfigure envA (configure envA c0).1).1.tdirs ∧
    (deconfigure { envA with dryRun := true } (configure envA c0).1).2
      = (deconfigure envA (configure envA c0).1).2 :=
  c10_dry_run_skips_only_rmdir envA (configure envA c0).1
    (by decide) (by decide) rfl (by decide)

end AptStager
